import Mathlib

/-!
Verification of the T3D scene import pipeline (`importFromT3D` in
`src/stores/workspace-store.ts`) against its natural-language specification.

The pipeline is embedded shallowly: JavaScript numbers become `ℚ` (the pipeline
only copies them, never computes with them), JSON-absent/`undefined` fields
become `Option`, the three-valued `string | null | undefined` runtime values of
`selectedObjectId` become `JsOptStr`, exceptions become `Except JsError`, and
the external zustand animation store becomes an explicit `AnimState` value that
is threaded through the import call.
-/

/-- A 3-component vector, as in `types/geometry` / the T3D JSON payload. -/
structure Vec3 where
  x : ℚ
  y : ℚ
  z : ℚ
deriving DecidableEq

/-- A 2-component vector. -/
structure Vec2 where
  x : ℚ
  y : ℚ
deriving DecidableEq

/-- Runtime value of a JavaScript `string | null | undefined` slot.
`undef` models an absent field (reads as `undefined`). -/
inductive JsOptStr where
  | undef : JsOptStr
  | null : JsOptStr
  | str : String → JsOptStr
deriving DecidableEq

/-- T3D serialized transform: position/rotation/scale vectors. -/
structure T3DTransform where
  position : Vec3
  rotation : Vec3
  scale : Vec3
deriving DecidableEq

/-- T3D serialized vertex. -/
structure T3DVertex where
  id : String
  position : Vec3
  normal : Vec3
  uv : Vec2
  selected : Bool
deriving DecidableEq

/-- T3D serialized edge. -/
structure T3DEdge where
  id : String
  vertexIds : List String
  faceIds : List String
  selected : Bool
deriving DecidableEq

/-- T3D serialized face. -/
structure T3DFace where
  id : String
  vertexIds : List String
  normal : Vec3
  materialId : Option String
  selected : Bool
deriving DecidableEq

/-- T3D serialized mesh. -/
structure T3DMesh where
  id : String
  name : String
  vertices : List T3DVertex
  edges : List T3DEdge
  faces : List T3DFace
  transform : T3DTransform
  visible : Bool
  locked : Bool
deriving DecidableEq

/-- T3D serialized material; `emissiveIntensity` is optional in the file. -/
structure T3DMaterial where
  id : String
  name : String
  color : Vec3
  roughness : ℚ
  metalness : ℚ
  emissive : Vec3
  emissiveIntensity : Option ℚ
deriving DecidableEq

/-- T3D serialized scene object; `render`, `meshId`, `lightId`, `cameraId`
are optional in the file. -/
structure T3DSceneObject where
  id : String
  name : String
  type : String
  parentId : Option String
  children : List String
  transform : T3DTransform
  visible : Bool
  locked : Bool
  render : Option Bool
  meshId : Option String
  lightId : Option String
  cameraId : Option String
deriving DecidableEq

/-- T3D serialized viewport camera sub-record. -/
structure T3DCamera where
  position : Vec3
  target : Vec3
  up : Vec3
  fov : ℚ
  near : ℚ
  far : ℚ
deriving DecidableEq

/-- T3D serialized viewport; `activeCameraObjectId` is optional. -/
structure T3DViewport where
  camera : T3DCamera
  shadingMode : String
  showGrid : Bool
  showAxes : Bool
  gridSize : ℚ
  backgroundColor : Vec3
  activeCameraObjectId : Option String
deriving DecidableEq

/-- A format version triple. -/
structure T3DVersion where
  major : Int
  minor : Int
  patch : Int
deriving DecidableEq

/-- T3D scene metadata record. -/
structure T3DMetadata where
  version : T3DVersion
  created : String
  modified : String
  author : Option String
  description : Option String
  application : String
  applicationVersion : String
deriving DecidableEq

/-- T3D serialized light resource; only its `id` is read by the importer. -/
structure T3DLight where
  id : String
deriving DecidableEq

/-- T3D serialized camera resource; only its `id` is read by the importer. -/
structure T3DCameraResource where
  id : String
deriving DecidableEq

/-- T3D serialized animation keyframe: id, time, value, interpolation tag. -/
structure T3DAnimKey where
  id : String
  t : ℚ
  v : ℚ
  interp : String
deriving DecidableEq

/-- T3D serialized animation track. -/
structure T3DAnimTrack where
  id : String
  targetId : String
  property : String
  keys : List T3DAnimKey
deriving DecidableEq

/-- T3D serialized animation clip. The runtime value of `tracks` may be
absent in a malformed payload (`none`), in which case `c.tracks.map` in
the importer throws a TypeError. -/
structure T3DAnimClip where
  id : String
  name : String
  start : ℚ
  «end» : ℚ
  loop : Bool
  speed : ℚ
  tracks : Option (List T3DAnimTrack)
deriving DecidableEq

/-- T3D serialized animations payload. -/
structure T3DAnimations where
  fps : Option ℚ
  clips : Option (List T3DAnimClip)
  activeClipId : Option String
deriving DecidableEq

/-- T3D serialized ui payload. -/
structure T3DUi where
  timelinePanelOpen : Option Bool
  lastUsedFps : Option ℚ
deriving DecidableEq

/-- The runtime shape of a parsed `scene.json` document: `JSON.parse` performs
no validation, so every top-level field may be absent at runtime. -/
structure T3DScene where
  metadata : Option T3DMetadata
  meshes : Option (List T3DMesh)
  materials : Option (List T3DMaterial)
  objects : Option (List T3DSceneObject)
  rootObjects : Option (List String)
  viewport : Option T3DViewport
  selectedObjectId : JsOptStr
  lights : Option (List T3DLight)
  cameras : Option (List T3DCameraResource)
  animations : Option T3DAnimations
  ui : Option T3DUi
deriving DecidableEq

/-- Internal transform (`types/geometry`). -/
structure Transform where
  position : Vec3
  rotation : Vec3
  scale : Vec3
deriving DecidableEq

/-- Internal vertex. -/
structure Vertex where
  id : String
  position : Vec3
  normal : Vec3
  uv : Vec2
  selected : Bool
deriving DecidableEq

/-- Internal edge. -/
structure Edge where
  id : String
  vertexIds : List String
  faceIds : List String
  selected : Bool
deriving DecidableEq

/-- Internal face. -/
structure Face where
  id : String
  vertexIds : List String
  normal : Vec3
  materialId : Option String
  selected : Bool
deriving DecidableEq

/-- Internal mesh. -/
structure Mesh where
  id : String
  name : String
  vertices : List Vertex
  edges : List Edge
  faces : List Face
  transform : Transform
  visible : Bool
  locked : Bool
deriving DecidableEq

/-- Internal material; `emissiveIntensity` is always present. -/
structure Material where
  id : String
  name : String
  color : Vec3
  roughness : ℚ
  metalness : ℚ
  emissive : Vec3
  emissiveIntensity : ℚ
deriving DecidableEq

/-- Internal scene object; `render` is always present. -/
structure SceneObject where
  id : String
  name : String
  type : String
  parentId : Option String
  children : List String
  transform : Transform
  visible : Bool
  locked : Bool
  render : Bool
  meshId : Option String
  lightId : Option String
  cameraId : Option String
deriving DecidableEq

/-- Internal viewport camera state. -/
structure CameraState where
  position : Vec3
  target : Vec3
  up : Vec3
  fov : ℚ
  near : ℚ
  far : ℚ
deriving DecidableEq

/-- Internal viewport state; `activeCameraObjectId` is `string | null`,
modelled as `Option String` with `none` for `null`. -/
structure ViewportState where
  camera : CameraState
  shadingMode : String
  showGrid : Bool
  showAxes : Bool
  gridSize : ℚ
  backgroundColor : Vec3
  activeCameraObjectId : Option String
deriving DecidableEq

/-- `t3dToVector3` from the importer: component-wise copy. -/
def t3dToVector3 (v : Vec3) : Vec3 :=
  { x := v.x, y := v.y, z := v.z }

/-- `t3dToVector2` from the importer: component-wise copy. -/
def t3dToVector2 (v : Vec2) : Vec2 :=
  { x := v.x, y := v.y }

/-- `t3dToMesh` from the importer. The `[...]` spreads on `faceIds` and
`vertexIds` copy list contents; content-wise they are the identity here, and
the aliasing discipline is verified separately in the `HeapModel` namespace. -/
def t3dToMesh (m : T3DMesh) : Mesh :=
  { id := m.id
    name := m.name
    vertices := m.vertices.map (fun v =>
      { id := v.id
        position := t3dToVector3 v.position
        normal := t3dToVector3 v.normal
        uv := t3dToVector2 v.uv
        selected := v.selected })
    edges := m.edges.map (fun e =>
      { id := e.id
        vertexIds := e.vertexIds
        faceIds := e.faceIds
        selected := e.selected })
    faces := m.faces.map (fun f =>
      { id := f.id
        vertexIds := f.vertexIds
        normal := t3dToVector3 f.normal
        materialId := f.materialId
        selected := f.selected })
    transform :=
      { position := t3dToVector3 m.transform.position
        rotation := t3dToVector3 m.transform.rotation
        scale := t3dToVector3 m.transform.scale }
    visible := m.visible
    locked := m.locked }

/-- `t3dToMaterial` from the importer; `?? 1` on `emissiveIntensity` becomes
`Option.getD 1`. -/
def t3dToMaterial (m : T3DMaterial) : Material :=
  { id := m.id
    name := m.name
    color := t3dToVector3 m.color
    roughness := m.roughness
    metalness := m.metalness
    emissive := t3dToVector3 m.emissive
    emissiveIntensity := m.emissiveIntensity.getD 1 }

/-- `t3dToSceneObject` from the importer; `?? true` on `render` becomes
`Option.getD true`. -/
def t3dToSceneObject (o : T3DSceneObject) : SceneObject :=
  { id := o.id
    name := o.name
    type := o.type
    parentId := o.parentId
    children := o.children
    transform :=
      { position := t3dToVector3 o.transform.position
        rotation := t3dToVector3 o.transform.rotation
        scale := t3dToVector3 o.transform.scale }
    visible := o.visible
    locked := o.locked
    render := o.render.getD true
    meshId := o.meshId
    lightId := o.lightId
    cameraId := o.cameraId }

/-- `t3dToViewport` from the importer; `?? null` on `activeCameraObjectId`
is the identity on `Option String` (`none` models both absent and null). -/
def t3dToViewport (vp : T3DViewport) : ViewportState :=
  { camera :=
      { position := t3dToVector3 vp.camera.position
        target := t3dToVector3 vp.camera.target
        up := t3dToVector3 vp.camera.up
        fov := vp.camera.fov
        near := vp.camera.near
        far := vp.camera.far }
    shadingMode := vp.shadingMode
    showGrid := vp.showGrid
    showAxes := vp.showAxes
    gridSize := vp.gridSize
    backgroundColor := t3dToVector3 vp.backgroundColor
    activeCameraObjectId := vp.activeCameraObjectId }

/-- Modelled from the spec: the application's current format version constant
`T3D_VERSION` is declared in `src/types/t3d.ts`, which is not among the given
sources; per the spec the current major version is 1 (testable property 3:
"document version 2.0.0 against current 1.x"). No claim depends on the minor
or patch value. -/
def T3D_VERSION : T3DVersion :=
  { major := 1, minor := 0, patch := 0 }

/-- `isVersionCompatible` from the importer: only the major version is
compared. -/
def isVersionCompatible (version : T3DVersion) : Bool :=
  version.major == T3D_VERSION.major

/-- The `major.minor.patch` template-literal formatting used by the importer
for error messages and output metadata. -/
def versionString (v : T3DVersion) : String :=
  toString v.major ++ "." ++ toString v.minor ++ "." ++ toString v.patch

/-- JavaScript object key update as performed by assignment `r[k] = v`:
update in place when the key exists, append otherwise. -/
def recordSet {α : Type} (r : List (String × α)) (k : String) (v : α) :
    List (String × α) :=
  if (r.map Prod.fst).contains k then
    r.map (fun p => if p.1 = k then (k, v) else p)
  else r ++ [(k, v)]

/-- `Object.fromEntries`: build an object from a list of key/value pairs,
later pairs overwriting earlier ones with the same key. -/
def fromEntries {α : Type} (entries : List (String × α)) : List (String × α) :=
  entries.foldl (fun acc p => recordSet acc p.1 p.2) []

/-- JavaScript object property read `r[k]`. -/
def recordGet {α : Type} (r : List (String × α)) (k : String) : Option α :=
  (r.find? (fun p => p.1 == k)).map Prod.snd

/-- Track-selection sub-record of the animation store
(`{ trackIds: [], keys: {} }` shape). -/
structure AnimSelection where
  trackIds : List String
  keys : List (String × List String)
deriving DecidableEq

/-- A clip as materialized into the animation store by the importer. -/
structure AnimClip where
  id : String
  name : String
  start : ℚ
  «end» : ℚ
  loop : Bool
  speed : ℚ
  trackIds : List String
deriving DecidableEq

/-- An animation channel as materialized by the importer. -/
structure AnimChannel where
  id : String
  keys : List T3DAnimKey
deriving DecidableEq

/-- A track as materialized into the animation store by the importer
(target type fixed to the string "sceneObject"). -/
structure AnimTrack where
  id : String
  targetType : String
  targetId : String
  property : String
  channel : AnimChannel
deriving DecidableEq

/-- Modelled from the spec: the state of the external animation runtime
container (`src/stores/animation-store.ts` is not among the given sources).
The field set follows the store accesses in `importFromT3D` together with the
spec's description of the container: clip/track collections, clip order,
active clip, markers, playhead/play state, solo-track set, sorted cache,
selection, plus the preserved fields (frame rate, auto-key, snapping) and the
ui-payload targets (timeline panel flag, last-used frame rate). -/
structure AnimState where
  playing : Bool
  playhead : ℚ
  selection : AnimSelection
  clips : List (String × AnimClip)
  clipOrder : List String
  activeClipId : Option String
  tracks : List (String × AnimTrack)
  sortedCache : List (String × String)
  markers : List String
  soloTrackIds : List String
  fps : ℚ
  autoKey : Bool
  snapping : Bool
  timelinePanelOpen : Bool
  lastUsedFps : ℚ
deriving DecidableEq

/-- The unconditional baseline reset performed by the first
`useAnimationStore.setState` call of the importer: runtime and data
containers cleared, `fps` kept as-is, `autoKey`/`snapping` left alone. -/
def resetAnimBaseline (s : AnimState) : AnimState :=
  { s with
    playing := false
    playhead := 0
    selection := { trackIds := [], keys := [] }
    clips := []
    clipOrder := []
    activeClipId := none
    tracks := []
    sortedCache := []
    markers := []
    soloTrackIds := [] }

/-- One `s.tracks[t.id] = ...` assignment from the clip-recreation loop. -/
def applyTrack (tracks : List (String × AnimTrack)) (t : T3DAnimTrack) :
    List (String × AnimTrack) :=
  recordSet tracks t.id
    { id := t.id
      targetType := "sceneObject"
      targetId := t.targetId
      property := t.property
      channel :=
        { id := t.id ++ ":ch"
          keys := t.keys.map (fun k =>
            { id := k.id, t := k.t, v := k.v, interp := k.interp }) } }

/-- The `setState` body run for one well-formed clip: record the clip, push
its id onto the clip order, and record each of its tracks. -/
def applyClip (s : AnimState) (c : T3DAnimClip) (ts : List T3DAnimTrack) :
    AnimState :=
  { s with
    clips := recordSet s.clips c.id
      { id := c.id
        name := c.name
        start := c.start
        «end» := c.«end»
        loop := c.loop
        speed := c.speed
        trackIds := ts.map T3DAnimTrack.id }
    clipOrder := s.clipOrder ++ [c.id]
    tracks := ts.foldl applyTrack s.tracks }

/-- The `anim.clips?.forEach` loop. Each clip runs in its own `setState`;
a clip whose runtime `tracks` field is absent makes `c.tracks.map` throw
before any mutation from that clip is applied, so the loop stops with the
state accumulated so far and the returned flag records that an exception
was thrown (to be caught by the surrounding `try`). -/
def applyClips (s : AnimState) : List T3DAnimClip → AnimState × Bool
  | [] => (s, false)
  | c :: rest =>
    match c.tracks with
    | none => (s, true)
    | some ts => applyClips (applyClip s c ts) rest

/-- Modelled from the spec: the animation store's `setActiveClip` action
(`src/stores/animation-store.ts` is not among the given sources), the
"set active clip by id-or-none" capability consumed by the importer. -/
def setActiveClip (s : AnimState) (id? : Option String) : AnimState :=
  { s with activeClipId := id? }

/-- The `if (ui)` block: `!!ui.timelinePanelOpen` coerces an absent flag to
`false`; `lastUsedFps` is updated only if provided. -/
def applyUi (s : AnimState) : Option T3DUi → AnimState
  | none => s
  | some u =>
    { s with
      timelinePanelOpen := u.timelinePanelOpen.getD false
      lastUsedFps := u.lastUsedFps.getD s.lastUsedFps }

/-- The body of the animation-projection `try` block after the baseline
reset, starting from state `s1`. Returns the resulting store state and a
flag recording whether an exception was thrown (and caught). On an
exception the remainder of the block — including the `if (ui)` part — is
skipped and the partially-updated state is kept (the store mutations
already applied are not rolled back). -/
def animPopulate (s1 : AnimState) (anim : Option T3DAnimations)
    (ui : Option T3DUi) : AnimState × Bool :=
  match anim with
  | none => (applyUi s1 ui, false)
  | some a =>
    match applyClips { s1 with fps := a.fps.getD s1.fps } (a.clips.getD []) with
    | (s3, true) => (s3, true)
    | (s3, false) =>
      let chosen : Option String :=
        match a.activeClipId with
        | some i => some i
        | none =>
          match a.clips with
          | some (c :: _) => some c.id
          | _ => none
      (applyUi (setActiveClip s3 chosen) ui, false)

/-- The whole animation-projection step (spec §4.5): unconditional baseline
reset, then best-effort population from the `animations`/`ui` payloads. -/
def projectAnimations (s0 : AnimState) (anim : Option T3DAnimations)
    (ui : Option T3DUi) : AnimState :=
  (animPopulate (resetAnimBaseline s0) anim ui).1

/-- A value thrown inside the import pipeline. Every constructor except
`nonError` models a JavaScript `Error` instance (the importer's throw sites
and the runtime's own `TypeError`s all construct `Error`s); `nonError`
models a thrown non-`Error` value. -/
inductive JsError where
  | missingEntry : String → JsError
  | malformedJson : String → JsError
  | missingField : String → JsError
  | versionMismatch : String → JsError
  | typeError : String → JsError
  | importFailed : String → JsError
  | nonError : String → JsError
deriving DecidableEq

/-- The `error instanceof Error` test of the importer's catch block. -/
def JsError.isErrorInstance : JsError → Bool
  | .nonError _ => false
  | _ => true

/-- Whether the text of the `scene.json` entry parses as JSON. A malformed
entry carries no document; a parsed one carries the runtime `T3DScene`. -/
inductive JsonDoc where
  | malformed : JsonDoc
  | parsed : T3DScene → JsonDoc
deriving DecidableEq

/-- The loaded zip archive as seen by the importer: only the presence and
content of the `scene.json` entry matter to the pipeline. -/
structure ZipContents where
  sceneJson : Option JsonDoc
deriving DecidableEq

/-- Output metadata record of `ImportedWorkspaceData`. -/
structure OutMetadata where
  version : String
  created : String
  modified : String
  author : Option String
  description : Option String
  application : String
  applicationVersion : String
deriving DecidableEq

/-- `ImportedWorkspaceData` from the importer. `selectedObjectId` is declared
`string | null` in the source but receives the document value verbatim, so it
is modelled by the three-valued `JsOptStr`. `lights`/`cameras` are optional
id-keyed objects. -/
structure ImportedWorkspaceData where
  meshes : List Mesh
  materials : List Material
  objects : List SceneObject
  rootObjects : List String
  viewport : ViewportState
  selectedObjectId : JsOptStr
  lights : Option (List (String × T3DLight))
  cameras : Option (List (String × T3DCameraResource))
  metadata : OutMetadata
deriving DecidableEq

/-- Construction of the `result` literal of `importFromT3D` from the already
validated document pieces. -/
def assembleResult (md : T3DMetadata) (meshes : List T3DMesh)
    (materials : List T3DMaterial) (objects : List T3DSceneObject)
    (vp : T3DViewport) (roots : List String) (scene : T3DScene) :
    ImportedWorkspaceData :=
  { meshes := meshes.map t3dToMesh
    materials := materials.map t3dToMaterial
    objects := objects.map t3dToSceneObject
    rootObjects := roots
    viewport := t3dToViewport vp
    selectedObjectId := scene.selectedObjectId
    lights := scene.lights.map (fun ls => fromEntries (ls.map (fun l => (l.id, l))))
    cameras := scene.cameras.map (fun cs => fromEntries (cs.map (fun c => (c.id, c))))
    metadata :=
      { version := versionString md.version
        created := md.created
        modified := md.modified
        author := md.author
        description := md.description
        application := md.application
        applicationVersion := md.applicationVersion } }

/-- The body of `importFromT3D`'s outer `try` block, in source order:
locate `scene.json`, parse it, check the four required fields, check version
compatibility, convert meshes/materials/objects, convert the viewport
(reading `.camera` of an absent viewport throws a TypeError), build the
lights/cameras maps, spread `rootObjects` (spreading an absent field throws
a TypeError), assemble the result, then run the animation projection. -/
def importFromT3Dbody (zip : ZipContents) (s0 : AnimState) :
    Except JsError (ImportedWorkspaceData × AnimState) :=
  match zip.sceneJson with
  | none => .error (.missingEntry "Invalid T3D file: scene.json not found")
  | some JsonDoc.malformed =>
    .error (.malformedJson "Invalid T3D file: scene.json is not valid JSON")
  | some (JsonDoc.parsed scene) =>
    match scene.metadata, scene.meshes, scene.materials, scene.objects with
    | some md, some meshes, some materials, some objects =>
      if isVersionCompatible md.version then
        match scene.viewport with
        | none =>
          .error (.typeError "Cannot read properties of undefined (reading camera)")
        | some vp =>
          match scene.rootObjects with
          | none => .error (.typeError "t3dScene.rootObjects is not iterable")
          | some roots =>
            .ok (assembleResult md meshes materials objects vp roots scene,
                 projectAnimations s0 scene.animations scene.ui)
      else
        .error (.versionMismatch
          ("Incompatible T3D version: " ++ versionString md.version ++
           ". Current version: " ++ versionString T3D_VERSION))
    | _, _, _, _ => .error (.missingField "Invalid T3D file: missing required data")

/-- `importFromT3D`: the `try` body wrapped by the outer catch block, which
rethrows any `Error` instance unchanged and wraps a thrown non-`Error` value
into the generic failure message. -/
def importFromT3D (zip : ZipContents) (s0 : AnimState) :
    Except JsError (ImportedWorkspaceData × AnimState) :=
  match importFromT3Dbody zip s0 with
  | .ok r => .ok r
  | .error e =>
    if e.isErrorInstance then .error e
    else .error (.importFailed "Failed to import T3D file: Unknown error occurred")

namespace HeapModel

/-!
A heap-level rendering of the reference-valued sequence fields, used to
verify the defensive-copy discipline of the converters: the `[...]` spreads
in `t3dToMesh` (`faceIds: [...edge.faceIds]`, `vertexIds: [...face.vertexIds]`)
and `t3dToSceneObject` (`children: [...t3dObject.children]`). An array value
is an address into a heap of string lists; a spread reads the source array
and allocates a fresh array with the same contents. Fields that are not
sequence-valued references are irrelevant here and kept minimal.
-/

/-- A heap of JavaScript arrays of identifier strings; an address is an
index into the heap. -/
abbrev Heap := List (List String)

/-- Read the array stored at address `a`. -/
def hread (h : Heap) (a : Nat) : List String :=
  (h[a]?).getD []

/-- Allocate a fresh array holding `xs`; returns the new heap and the fresh
address. -/
def halloc (h : Heap) (xs : List String) : Heap × Nat :=
  (h ++ [xs], h.length)

/-- In-place mutation of the array at address `a`. -/
def hwrite (h : Heap) (a : Nat) (xs : List String) : Heap :=
  h.set a xs

/-- The JavaScript spread `[...src]`: read the source array and allocate an
independent copy with the same elements in the same order. -/
def spreadCopy (h : Heap) (a : Nat) : Heap × Nat :=
  halloc h (hread h a)

/-- A T3D edge whose `faceIds` array lives on the heap (`vertexIds` too,
since the converter passes it through by reference). -/
structure T3DEdgeR where
  id : String
  vertexIds : Nat
  faceIds : Nat
  selected : Bool
deriving DecidableEq

/-- A converted edge; `faceIds` holds the address of the copied array. -/
structure EdgeR where
  id : String
  vertexIds : Nat
  faceIds : Nat
  selected : Bool
deriving DecidableEq

/-- A T3D face whose `vertexIds` array lives on the heap. -/
structure T3DFaceR where
  id : String
  vertexIds : Nat
  materialId : Option String
  selected : Bool
deriving DecidableEq

/-- A converted face; `vertexIds` holds the address of the copied array. -/
structure FaceR where
  id : String
  vertexIds : Nat
  materialId : Option String
  selected : Bool
deriving DecidableEq

/-- A T3D scene object whose `children` array lives on the heap. -/
structure T3DObjR where
  id : String
  children : Nat
deriving DecidableEq

/-- A converted scene object; `children` holds the address of the copy. -/
structure ObjR where
  id : String
  children : Nat
deriving DecidableEq

/-- The edge conversion of `t3dToMesh` at heap level:
`faceIds: [...edge.faceIds]` copies, `vertexIds: edge.vertexIds` aliases. -/
def t3dToEdge (h : Heap) (e : T3DEdgeR) : Heap × EdgeR :=
  let p := spreadCopy h e.faceIds
  (p.1, { id := e.id, vertexIds := e.vertexIds, faceIds := p.2,
          selected := e.selected })

/-- The face conversion of `t3dToMesh` at heap level:
`vertexIds: [...face.vertexIds]` copies. -/
def t3dToFace (h : Heap) (f : T3DFaceR) : Heap × FaceR :=
  let p := spreadCopy h f.vertexIds
  (p.1, { id := f.id, vertexIds := p.2, materialId := f.materialId,
          selected := f.selected })

/-- The object conversion of `t3dToSceneObject` at heap level:
`children: [...t3dObject.children]` copies. -/
def t3dToObject (h : Heap) (o : T3DObjR) : Heap × ObjR :=
  let p := spreadCopy h o.children
  (p.1, { id := o.id, children := p.2 })

end HeapModel

/-- A zero vector used by the concrete example documents. -/
def exVec3 : Vec3 := { x := 0, y := 0, z := 0 }

/-- A concrete viewport camera. -/
def exCamera : T3DCamera :=
  { position := { x := 0, y := 0, z := 5 }, target := exVec3,
    up := { x := 0, y := 1, z := 0 }, fov := 50, near := 1, far := 1000 }

/-- A concrete viewport. -/
def exViewportT3D : T3DViewport :=
  { camera := exCamera, shadingMode := "solid", showGrid := true,
    showAxes := true, gridSize := 10, backgroundColor := exVec3,
    activeCameraObjectId := none }

/-- Concrete metadata with a compatible version (major 1). -/
def exMetadata1 : T3DMetadata :=
  { version := { major := 1, minor := 2, patch := 3 }, created := "c",
    modified := "m", author := none, description := none,
    application := "freed", applicationVersion := "0.1.0" }

/-- Concrete metadata with an incompatible major version 2. -/
def exMetadataV2 : T3DMetadata :=
  { exMetadata1 with version := { major := 2, minor := 0, patch := 0 } }

/-- A minimal valid scene document: required fields present (empty
sequences), no optional payloads. -/
def exScene1 : T3DScene :=
  { metadata := some exMetadata1, meshes := some [], materials := some [],
    objects := some [], rootObjects := some [], viewport := some exViewportT3D,
    selectedObjectId := JsOptStr.undef, lights := none, cameras := none,
    animations := none, ui := none }

/-- A scene whose required (per the claim) `viewport` field is absent while
the four code-checked fields are present. -/
def exSceneNoViewport : T3DScene := { exScene1 with viewport := none }

/-- A scene whose `rootObjects` field is absent. -/
def exSceneNoRoots : T3DScene := { exScene1 with rootObjects := none }

/-- A scene missing the `meshes` required field. -/
def exSceneNoMeshes : T3DScene := { exScene1 with meshes := none }

/-- A scene with an incompatible (major 2) document version. -/
def exSceneV2 : T3DScene := { exScene1 with metadata := some exMetadataV2 }

/-- A malformed animations payload: the single clip's `tracks` field is
absent at runtime, so `c.tracks.map` throws inside the projection step. -/
def exBadAnim : T3DAnimations :=
  { fps := some 60,
    clips := some [{ id := "c1", name := "clip", start := 0, «end» := 10,
                     loop := true, speed := 1, tracks := none }],
    activeClipId := none }

/-- A valid scene carrying the malformed animations payload. -/
def exSceneBadAnim : T3DScene := { exScene1 with animations := some exBadAnim }

/-- A valid scene with a two-light payload and no cameras payload. -/
def exScene7 : T3DScene :=
  { exScene1 with lights := some [{ id := "l1" }, { id := "l2" }] }

/-- Zip archives wrapping the example documents. -/
def exZip1 : ZipContents := { sceneJson := some (JsonDoc.parsed exScene1) }

/-- Archive with a `scene.json` entry that is not valid JSON. -/
def exZipMalformed : ZipContents := { sceneJson := some JsonDoc.malformed }

/-- Archive around the viewport-less document. -/
def exZipNoViewport : ZipContents :=
  { sceneJson := some (JsonDoc.parsed exSceneNoViewport) }

/-- Archive around the rootObjects-less document. -/
def exZipNoRoots : ZipContents :=
  { sceneJson := some (JsonDoc.parsed exSceneNoRoots) }

/-- Archive around the meshes-less document. -/
def exZipNoMeshes : ZipContents :=
  { sceneJson := some (JsonDoc.parsed exSceneNoMeshes) }

/-- Archive around the version-2 document. -/
def exZipV2 : ZipContents := { sceneJson := some (JsonDoc.parsed exSceneV2) }

/-- Archive around the malformed-animations document. -/
def exZipBadAnim : ZipContents :=
  { sceneJson := some (JsonDoc.parsed exSceneBadAnim) }

/-- Archive around the lights/cameras document. -/
def exZip7 : ZipContents := { sceneJson := some (JsonDoc.parsed exScene7) }

/-- A leftover clip in the animation store before an import. -/
def exOldClip : AnimClip :=
  { id := "old", name := "old clip", start := 0, «end» := 5, loop := false,
    speed := 1, trackIds := ["ot"] }

/-- A leftover track in the animation store before an import. -/
def exOldTrack : AnimTrack :=
  { id := "ot", targetType := "sceneObject", targetId := "obj", property := "p",
    channel := { id := "ot:ch", keys := [] } }

/-- A dirty pre-import animation store state, to exercise the baseline
reset. -/
def exAnim0 : AnimState :=
  { playing := true, playhead := 5,
    selection := { trackIds := ["ot"], keys := [("ot", ["k1"])] },
    clips := [("old", exOldClip)], clipOrder := ["old"],
    activeClipId := some "old", tracks := [("ot", exOldTrack)],
    sortedCache := [("ot", "cache")], markers := ["m1"],
    soloTrackIds := ["ot"], fps := 24, autoKey := true, snapping := false,
    timelinePanelOpen := true, lastUsedFps := 30 }

/-- Concrete materials exercising the `emissiveIntensity` default. -/
def exMatAbsent : T3DMaterial :=
  { id := "m1", name := "mat", color := exVec3, roughness := 1,
    metalness := 0, emissive := exVec3, emissiveIntensity := none }

/-- The same material with `emissiveIntensity` present and equal to 0. -/
def exMatZero : T3DMaterial := { exMatAbsent with emissiveIntensity := some 0 }

/-- An identity transform for the example scene object. -/
def exTransform : T3DTransform :=
  { position := exVec3, rotation := exVec3, scale := { x := 1, y := 1, z := 1 } }

/-- A scene object with `render` present and `false`. -/
def exObjRenderFalse : T3DSceneObject :=
  { id := "o1", name := "obj", type := "mesh", parentId := none,
    children := [], transform := exTransform, visible := true,
    locked := false, render := some false, meshId := none, lightId := none,
    cameraId := none }

/-- The same scene object with `render` absent. -/
def exObjRenderAbsent : T3DSceneObject := { exObjRenderFalse with render := none }

/-- An archive with no `scene.json` entry at all. -/
def exZipNoEntry : ZipContents := { sceneJson := none }

namespace HeapModel

/-- A one-array heap holding a source `faceIds` array. -/
def exHeapE : Heap := [["f1", "f2"]]

/-- An edge whose `faceIds` array lives at address 0 of `exHeapE`. -/
def exEdgeR : T3DEdgeR :=
  { id := "e1", vertexIds := 0, faceIds := 0, selected := false }

/-- A one-array heap holding a source `vertexIds` array. -/
def exHeapF : Heap := [["v1", "v2", "v3"]]

/-- A face whose `vertexIds` array lives at address 0 of `exHeapF`. -/
def exFaceR : T3DFaceR :=
  { id := "fa1", vertexIds := 0, materialId := none, selected := false }

/-- A one-array heap holding a source `children` array. -/
def exHeapO : Heap := [["child1"]]

/-- An object whose `children` array lives at address 0 of `exHeapO`. -/
def exObjR : T3DObjR := { id := "o1", children := 0 }

end HeapModel

/-- Keys of a `recordSet`: unchanged when the key is already present,
appended otherwise. -/
theorem keys_recordSet {α : Type} (r : List (String × α)) (k : String) (v : α) :
    (recordSet r k v).map Prod.fst =
      if k ∈ r.map Prod.fst then r.map Prod.fst else r.map Prod.fst ++ [k] := by
  have hc : (r.map Prod.fst).contains k = true ↔ k ∈ r.map Prod.fst := by
    simp [List.contains, List.elem_iff]
  unfold recordSet
  by_cases h : k ∈ r.map Prod.fst
  · rw [if_pos (hc.mpr h), if_pos h, List.map_map]
    apply List.map_congr_left
    intro p _
    by_cases hp : p.1 = k <;> simp [hp]
  · rw [if_neg (fun hh => h (hc.mp hh)), if_neg h]
    simp

/-- Membership in the keys of a `recordSet`. -/
theorem mem_keys_recordSet {α : Type} (r : List (String × α)) (k k' : String)
    (v : α) :
    k' ∈ (recordSet r k v).map Prod.fst ↔ k' ∈ r.map Prod.fst ∨ k' = k := by
  rw [keys_recordSet]
  by_cases h : k ∈ r.map Prod.fst
  · rw [if_pos h]
    constructor
    · exact Or.inl
    · rintro (h' | rfl)
      · exact h'
      · exact h
  · rw [if_neg h]
    simp

/-- `recordSet` preserves key uniqueness. -/
theorem nodup_keys_recordSet {α : Type} (r : List (String × α)) (k : String)
    (v : α) (h : (r.map Prod.fst).Nodup) :
    ((recordSet r k v).map Prod.fst).Nodup := by
  rw [keys_recordSet]
  by_cases hk : k ∈ r.map Prod.fst
  · rw [if_pos hk]; exact h
  · rw [if_neg hk]
    simp [List.nodup_append, h, hk]

/-- Membership in the keys of a left fold of `recordSet`s. -/
theorem mem_keys_foldl_recordSet {α : Type} (es : List (String × α))
    (acc : List (String × α)) (k : String) :
    k ∈ ((es.foldl (fun a p => recordSet a p.1 p.2) acc).map Prod.fst) ↔
      k ∈ acc.map Prod.fst ∨ k ∈ es.map Prod.fst := by
  induction es generalizing acc with
  | nil => simp
  | cons p rest ih =>
    rw [List.foldl_cons, ih, mem_keys_recordSet]
    simp only [List.map_cons, List.mem_cons]
    tauto

/-- A left fold of `recordSet`s preserves key uniqueness. -/
theorem nodup_keys_foldl_recordSet {α : Type} (es : List (String × α))
    (acc : List (String × α)) (h : (acc.map Prod.fst).Nodup) :
    (((es.foldl (fun a p => recordSet a p.1 p.2) acc)).map Prod.fst).Nodup := by
  induction es generalizing acc with
  | nil => exact h
  | cons p rest ih => exact ih _ (nodup_keys_recordSet _ _ _ h)

/-- The keys of `Object.fromEntries entries` are exactly the keys occurring
among the entries. -/
theorem mem_keys_fromEntries {α : Type} (es : List (String × α)) (k : String) :
    k ∈ (fromEntries es).map Prod.fst ↔ k ∈ es.map Prod.fst := by
  unfold fromEntries
  rw [mem_keys_foldl_recordSet]
  simp

/-- `Object.fromEntries` yields one entry per unique key. -/
theorem nodup_keys_fromEntries {α : Type} (es : List (String × α)) :
    ((fromEntries es).map Prod.fst).Nodup := by
  unfold fromEntries
  exact nodup_keys_foldl_recordSet _ _ (by simp)

/-- A key reads back from an object exactly when it is among the object's
keys. -/
theorem recordGet_isSome_iff {α : Type} (r : List (String × α)) (k : String) :
    ((recordGet r k).isSome = true) ↔ k ∈ r.map Prod.fst := by
  simp [recordGet, List.find?_isSome, List.mem_map, beq_iff_eq]

/-- The clip-recreation loop touches only the clip, clip-order and track
containers: `fps`, `autoKey` and `snapping` pass through untouched. -/
theorem applyClips_preserve (cs : List T3DAnimClip) (s : AnimState) :
    (applyClips s cs).1.fps = s.fps ∧
    (applyClips s cs).1.autoKey = s.autoKey ∧
    (applyClips s cs).1.snapping = s.snapping := by
  induction cs generalizing s with
  | nil => simp [applyClips]
  | cons c rest ih =>
    cases h : c.tracks with
    | none => simp [applyClips, h]
    | some ts =>
      have := ih (applyClip s c ts)
      simpa [applyClips, h, applyClip] using this

/-- The `if (ui)` block touches only `timelinePanelOpen` and `lastUsedFps`. -/
theorem applyUi_preserve (s : AnimState) (u : Option T3DUi) :
    (applyUi s u).fps = s.fps ∧ (applyUi s u).autoKey = s.autoKey ∧
    (applyUi s u).snapping = s.snapping := by
  cases u <;> simp [applyUi]

/-- The populate phase of the animation projection never touches `autoKey`
or `snapping`, and touches `fps` only when the animations payload carries an
explicit frame rate. -/
theorem animPopulate_preserve (s : AnimState) (a : Option T3DAnimations)
    (u : Option T3DUi) :
    (animPopulate s a u).1.autoKey = s.autoKey ∧
    (animPopulate s a u).1.snapping = s.snapping ∧
    ((a = none ∨ ∃ x, a = some x ∧ x.fps = none) →
      (animPopulate s a u).1.fps = s.fps) := by
  cases a with
  | none =>
    obtain ⟨hf, hak, hsn⟩ := applyUi_preserve s u
    exact ⟨by simpa [animPopulate] using hak, by simpa [animPopulate] using hsn,
           fun _ => by simpa [animPopulate] using hf⟩
  | some an =>
    obtain ⟨cf, cak, csn⟩ :=
      applyClips_preserve (an.clips.getD []) { s with fps := an.fps.getD s.fps }
    rcases hc : applyClips { s with fps := an.fps.getD s.fps } (an.clips.getD [])
      with ⟨s3, b⟩
    rw [hc] at cf cak csn
    have hak3 : s3.autoKey = s.autoKey := by simpa using cak
    have hsn3 : s3.snapping = s.snapping := by simpa using csn
    have hf3 : s3.fps = an.fps.getD s.fps := by simpa using cf
    cases b with
    | true =>
      refine ⟨?_, ?_, ?_⟩
      · simp only [animPopulate, hc]
        exact hak3
      · simp only [animPopulate, hc]
        exact hsn3
      · rintro (h | ⟨x, hx, hfx⟩)
        · exact absurd h (by simp)
        · obtain rfl : an = x := by injection hx
          simp only [animPopulate, hc]
          rw [hf3, hfx]
          rfl
    | false =>
      refine ⟨?_, ?_, ?_⟩
      · simp only [animPopulate, hc]
        exact ((applyUi_preserve _ u).2.1).trans hak3
      · simp only [animPopulate, hc]
        exact ((applyUi_preserve _ u).2.2).trans hsn3
      · rintro (h | ⟨x, hx, hfx⟩)
        · exact absurd h (by simp)
        · obtain rfl : an = x := by injection hx
          simp only [animPopulate, hc]
          refine ((applyUi_preserve _ u).1).trans ?_
          rw [hfx] at hf3
          simpa [setActiveClip] using hf3

/-- Inversion: a successful run of the `try` body implies the archive held a
parseable document with all checked fields present, and determines the
returned data and animation state. -/
theorem importFromT3Dbody_ok_inv (zip : ZipContents) (s0 : AnimState)
    (d : ImportedWorkspaceData) (s' : AnimState)
    (h : importFromT3Dbody zip s0 = .ok (d, s')) :
    ∃ scene md meshes materials objects vp roots,
      zip.sceneJson = some (JsonDoc.parsed scene) ∧
      scene.metadata = some md ∧ scene.meshes = some meshes ∧
      scene.materials = some materials ∧ scene.objects = some objects ∧
      isVersionCompatible md.version = true ∧
      scene.viewport = some vp ∧ scene.rootObjects = some roots ∧
      d = assembleResult md meshes materials objects vp roots scene ∧
      s' = projectAnimations s0 scene.animations scene.ui := by
  unfold importFromT3Dbody at h
  split at h
  · exact absurd h (by simp)
  · exact absurd h (by simp)
  · rename_i scene hzip
    split at h
    · rename_i md meshes materials objects hmd hme hma hob
      split at h
      · rename_i hv
        split at h
        · exact absurd h (by simp)
        · rename_i vp hvp
          split at h
          · exact absurd h (by simp)
          · rename_i roots hro
            simp only [Except.ok.injEq, Prod.mk.injEq] at h
            exact ⟨scene, md, meshes, materials, objects, vp, roots, hzip,
                   hmd, hme, hma, hob, hv, hvp, hro, h.1.symm, h.2.symm⟩
      · exact absurd h (by simp)
    · exact absurd h (by simp)

/-- Inversion through the outer catch block: a successful `importFromT3D`
run is a successful run of its `try` body. -/
theorem importFromT3D_ok_inv (zip : ZipContents) (s0 : AnimState)
    (d : ImportedWorkspaceData) (s' : AnimState)
    (h : importFromT3D zip s0 = .ok (d, s')) :
    ∃ scene md meshes materials objects vp roots,
      zip.sceneJson = some (JsonDoc.parsed scene) ∧
      scene.metadata = some md ∧ scene.meshes = some meshes ∧
      scene.materials = some materials ∧ scene.objects = some objects ∧
      isVersionCompatible md.version = true ∧
      scene.viewport = some vp ∧ scene.rootObjects = some roots ∧
      d = assembleResult md meshes materials objects vp roots scene ∧
      s' = projectAnimations s0 scene.animations scene.ui := by
  unfold importFromT3D at h
  split at h
  · rename_i r hbody
    simp only [Except.ok.injEq] at h
    rw [h] at hbody
    exact importFromT3Dbody_ok_inv zip s0 d s' hbody
  · split at h <;> exact absurd h (by simp)

/-- On a document that passes every check, `importFromT3D` succeeds and
returns the assembled result together with the projected animation state. -/
theorem importFromT3D_ok_of_valid (zip : ZipContents) (s0 : AnimState)
    (scene : T3DScene) (md : T3DMetadata) (meshes : List T3DMesh)
    (materials : List T3DMaterial) (objects : List T3DSceneObject)
    (vp : T3DViewport) (roots : List String)
    (hz : zip.sceneJson = some (JsonDoc.parsed scene))
    (hmd : scene.metadata = some md) (hme : scene.meshes = some meshes)
    (hma : scene.materials = some materials) (hob : scene.objects = some objects)
    (hv : isVersionCompatible md.version = true)
    (hvp : scene.viewport = some vp) (hro : scene.rootObjects = some roots) :
    (importFromT3D zip s0) =
      .ok (assembleResult md meshes materials objects vp roots scene,
           projectAnimations s0 scene.animations scene.ui) := by
  unfold importFromT3D importFromT3Dbody
  simp [hz, hmd, hme, hma, hob, hvp, hro, hv]

namespace HeapModel

/-- Reading a freshly allocated address yields the allocated contents. -/
theorem hread_halloc (h : Heap) (xs : List String) :
    hread (h ++ [xs]) h.length = xs := by
  simp [hread, List.getElem?_append]

/-- Allocation does not disturb existing addresses. -/
theorem hread_append_lt (h : Heap) (xs : List String) (a : Nat)
    (ha : a < h.length) : hread (h ++ [xs]) a = hread h a := by
  simp [hread, List.getElem?_append, ha]

/-- Writing one address does not disturb a different address. -/
theorem hread_set_ne (h : Heap) (a b : Nat) (xs : List String) (hne : a ≠ b) :
    hread (hwrite h b xs) a = hread h a := by
  simp [hread, hwrite, List.getElem?_set_ne hne.symm]

/-- The spread `[...src]` produces a fresh array with the same contents in
the same order, and writes to either of the two arrays never affect the
other. -/
theorem spreadCopy_spec (h : Heap) (a : Nat) (ha : a < h.length) :
    hread (spreadCopy h a).1 (spreadCopy h a).2 = hread h a ∧
    (spreadCopy h a).2 ≠ a ∧
    ∀ xs, hread (hwrite (spreadCopy h a).1 (spreadCopy h a).2 xs) a = hread h a ∧
          hread (hwrite (spreadCopy h a).1 a xs) (spreadCopy h a).2 = hread h a := by
  refine ⟨hread_halloc h (hread h a), (Nat.ne_of_lt ha).symm, ?_⟩
  intro xs
  have e1 : (spreadCopy h a).1 = h ++ [hread h a] := rfl
  have e2 : (spreadCopy h a).2 = h.length := rfl
  rw [e1, e2]
  constructor
  · rw [hread_set_ne (h ++ [hread h a]) a h.length xs (Nat.ne_of_lt ha)]
    exact hread_append_lt h (hread h a) a ha
  · rw [hread_set_ne (h ++ [hread h a]) h.length a xs (Nat.ne_of_lt ha).symm]
    exact hread_halloc h (hread h a)

end HeapModel

/-- C1 (counterexample): the claim lists `rootObjects` and `viewport` among
the fields whose absence triggers MissingFieldError, but on a parsed
document carrying `metadata`/`meshes`/`materials`/`objects` and no
`viewport`, the importer sails past its required-field check and fails with
an untyped TypeError instead of a MissingFieldError. -/
theorem c1_counterexample :
    exSceneNoViewport.viewport = none ∧
    (importFromT3D exZipNoViewport exAnim0) =
      .error (.typeError "Cannot read properties of undefined (reading camera)") ∧
    (importFromT3D exZipNoViewport exAnim0) ≠
      .error (.missingField "Invalid T3D file: missing required data") := by
  have hres : importFromT3D exZipNoViewport exAnim0 =
      .error (.typeError "Cannot read properties of undefined (reading camera)") := rfl
  refine ⟨rfl, hres, ?_⟩
  rw [hres]
  simp

/-- C1 (amended): for every document that parses as valid JSON, if any of
the four code-checked required fields — `metadata`, `meshes`, `materials`,
`objects` — is absent, `importFromT3D` fails with the MissingFieldError
message, and this check applies only to parsed documents (the hypothesis
requires JSON-syntax validation to have succeeded); absence of
`rootObjects` or `viewport` is not covered by this check. -/
theorem c1_missing_field_check (zip : ZipContents) (s0 : AnimState)
    (scene : T3DScene)
    (hz : zip.sceneJson = some (JsonDoc.parsed scene))
    (h : scene.metadata = none ∨ scene.meshes = none ∨
         scene.materials = none ∨ scene.objects = none) :
    (importFromT3D zip s0) =
      .error (.missingField "Invalid T3D file: missing required data") := by
  have hb : importFromT3Dbody zip s0 =
      .error (.missingField "Invalid T3D file: missing required data") := by
    unfold importFromT3Dbody
    rcases hmd : scene.metadata with _ | md <;>
      rcases hme : scene.meshes with _ | meshes <;>
        rcases hma : scene.materials with _ | materials <;>
          rcases hob : scene.objects with _ | objects <;>
            simp_all [hz]
  unfold importFromT3D
  rw [hb]
  rfl

/-- C1 (witness): a document missing only `meshes` hits the
MissingFieldError path. -/
theorem c1_witness :
    (importFromT3D exZipNoMeshes exAnim0) =
      .error (.missingField "Invalid T3D file: missing required data") :=
  c1_missing_field_check exZipNoMeshes exAnim0 exSceneNoMeshes rfl
    (Or.inr (Or.inl rfl))

/-- C2: on a parsed document with the four checked fields present,
`importFromT3D` fails with a VersionMismatchError exactly when the
document's major version differs from the application's current major
version (minor and patch play no role), and the error message contains both
versions formatted as major.minor.patch. -/
theorem c2_version_mismatch (zip : ZipContents) (s0 : AnimState)
    (scene : T3DScene) (md : T3DMetadata) (meshes : List T3DMesh)
    (materials : List T3DMaterial) (objects : List T3DSceneObject)
    (hz : zip.sceneJson = some (JsonDoc.parsed scene))
    (hmd : scene.metadata = some md) (hme : scene.meshes = some meshes)
    (hma : scene.materials = some materials)
    (hob : scene.objects = some objects) :
    ((md.version.major ≠ T3D_VERSION.major) ↔
      ∃ msg, importFromT3D zip s0 = .error (.versionMismatch msg)) ∧
    (∀ msg, importFromT3D zip s0 = .error (.versionMismatch msg) →
      ∃ p q, msg = p ++ versionString md.version ++ q ++
        versionString T3D_VERSION) := by
  by_cases hv : md.version.major = T3D_VERSION.major
  · have hcompat : isVersionCompatible md.version = true := by
      simp [isVersionCompatible, hv]
    have hnone : ∀ msg,
        (importFromT3D zip s0) ≠ .error (.versionMismatch msg) := by
      intro msg hcontra
      unfold importFromT3D importFromT3Dbody at hcontra
      rcases hvp : scene.viewport with _ | vp <;>
        rcases hro : scene.rootObjects with _ | roots <;>
          simp [hz, hmd, hme, hma, hob, hcompat, hvp, hro,
                JsError.isErrorInstance] at hcontra
    refine ⟨⟨fun hne => absurd hv hne, ?_⟩, ?_⟩
    · rintro ⟨msg, hmsg⟩
      exact absurd hmsg (hnone msg)
    · intro msg hmsg
      exact absurd hmsg (hnone msg)
  · have hcompat : isVersionCompatible md.version = false := by
      simp [isVersionCompatible, hv]
    have hres : importFromT3D zip s0 =
        .error (.versionMismatch ("Incompatible T3D version: " ++
          versionString md.version ++ ". Current version: " ++
          versionString T3D_VERSION)) := by
      unfold importFromT3D importFromT3Dbody
      simp [hz, hmd, hme, hma, hob, hcompat, JsError.isErrorInstance]
    refine ⟨⟨fun _ => ⟨_, hres⟩, fun _ => hv⟩, ?_⟩
    intro msg hmsg
    rw [hres] at hmsg
    simp only [Except.error.injEq, JsError.versionMismatch.injEq] at hmsg
    exact ⟨"Incompatible T3D version: ", ". Current version: ", hmsg.symm⟩

/-- C2 (witness): a version-2.0.0 document against the current version is
rejected with a message containing both formatted versions. -/
theorem c2_witness :
    (∃ msg, importFromT3D exZipV2 exAnim0 = .error (.versionMismatch msg)) ∧
    (∃ p q, "Incompatible T3D version: 2.0.0. Current version: 1.0.0" =
      p ++ versionString exMetadataV2.version ++ q ++
        versionString T3D_VERSION) := by
  obtain ⟨hiff, hmsg⟩ := c2_version_mismatch exZipV2 exAnim0 exSceneV2
    exMetadataV2 [] [] [] rfl rfl rfl rfl rfl
  exact ⟨hiff.mp (by decide), hmsg _ rfl⟩

/-- C3 (counterexample): an unexpected runtime failure that is not one of
the recognized typed format errors — the TypeError thrown while spreading
an absent `rootObjects` — reaches the caller unchanged rather than being
wrapped into the generic ImportFailedError, refuting the claim's wrapping
clause. -/
theorem c3_counterexample :
    (importFromT3D exZipNoRoots exAnim0) =
      .error (.typeError "t3dScene.rootObjects is not iterable") ∧
    (JsError.typeError "t3dScene.rootObjects is not iterable").isErrorInstance
      = true ∧
    (importFromT3D exZipNoRoots exAnim0) ≠
      .error (.importFailed "Failed to import T3D file: Unknown error occurred") := by
  have hres : importFromT3D exZipNoRoots exAnim0 =
      .error (.typeError "t3dScene.rootObjects is not iterable") := rfl
  refine ⟨rfl, rfl, ?_⟩
  rw [hres]
  simp

/-- C3 (amended): every error raised inside the pipeline body that is an
`Error` instance — the typed format errors of the scene-document-parser
step and unexpected runtime errors alike — propagates to the caller
unchanged; only a thrown value that is not an `Error` instance is wrapped
into the generic ImportFailedError with its fixed message. -/
theorem c3_error_propagation (zip : ZipContents) (s0 : AnimState)
    (e : JsError) (h : importFromT3Dbody zip s0 = .error e) :
    (e.isErrorInstance = true → importFromT3D zip s0 = .error e) ∧
    (e.isErrorInstance = false → importFromT3D zip s0 =
      .error (.importFailed "Failed to import T3D file: Unknown error occurred")) := by
  constructor <;> intro hi <;> unfold importFromT3D <;> rw [h] <;> simp [hi]

/-- C3 (witness): the missing-entry format error of the parser step
propagates unchanged through the catch block. -/
theorem c3_witness :
    (importFromT3D exZipNoEntry exAnim0) =
      .error (.missingEntry "Invalid T3D file: scene.json not found") :=
  (c3_error_propagation exZipNoEntry exAnim0
    (.missingEntry "Invalid T3D file: scene.json not found") rfl).1 rfl

/-- C4: on a document that passes every check, even when the
animation-projection step fails internally (flag `true` from the populate
phase, e.g. a malformed animations payload), the failure is suppressed and
`importFromT3D` still returns its fully assembled primary result. -/
theorem c4_anim_failure_suppressed (zip : ZipContents) (s0 : AnimState)
    (scene : T3DScene) (md : T3DMetadata) (meshes : List T3DMesh)
    (materials : List T3DMaterial) (objects : List T3DSceneObject)
    (vp : T3DViewport) (roots : List String)
    (hz : zip.sceneJson = some (JsonDoc.parsed scene))
    (hmd : scene.metadata = some md) (hme : scene.meshes = some meshes)
    (hma : scene.materials = some materials)
    (hob : scene.objects = some objects)
    (hv : isVersionCompatible md.version = true)
    (hvp : scene.viewport = some vp) (hro : scene.rootObjects = some roots)
    (hthrow : (animPopulate (resetAnimBaseline s0) scene.animations
      scene.ui).2 = true) :
    (importFromT3D zip s0) =
      .ok (assembleResult md meshes materials objects vp roots scene,
           projectAnimations s0 scene.animations scene.ui) :=
  (importFromT3D_ok_of_valid zip s0 scene md meshes materials objects vp roots
    hz hmd hme hma hob hv hvp hro)

/-- C4 (witness): a scene whose animations payload carries a clip with an
absent `tracks` field makes the projection throw, yet the import succeeds
with the assembled result. -/
theorem c4_witness :
    (animPopulate (resetAnimBaseline exAnim0) exSceneBadAnim.animations
      exSceneBadAnim.ui).2 = true ∧
    (importFromT3D exZipBadAnim exAnim0) =
      .ok (assembleResult exMetadata1 [] [] [] exViewportT3D [] exSceneBadAnim,
           projectAnimations exAnim0 exSceneBadAnim.animations
             exSceneBadAnim.ui) :=
  ⟨rfl, c4_anim_failure_suppressed exZipBadAnim exAnim0 exSceneBadAnim
    exMetadata1 [] [] [] exViewportT3D [] rfl rfl rfl rfl rfl rfl rfl rfl rfl⟩

/-- C5: every successful import goes through the baseline reset of the
animation container: the final animation state is the populate phase applied
to `resetAnimBaseline s0`, which clears the active clip, clip/track
collections, clip order, markers, playhead, play state and solo-track set
while keeping `fps`, `autoKey` and `snapping`; moreover the final state
keeps `autoKey`/`snapping` unconditionally and keeps `fps` whenever the
animations payload does not explicitly provide one, and with no
animations/ui payload at all the container ends exactly at the baseline. -/
theorem c5_anim_reset_baseline (zip : ZipContents) (s0 : AnimState)
    (d : ImportedWorkspaceData) (s' : AnimState)
    (h : importFromT3D zip s0 = .ok (d, s')) :
    ∃ scene : T3DScene,
      zip.sceneJson = some (JsonDoc.parsed scene) ∧
      s' = (animPopulate (resetAnimBaseline s0) scene.animations scene.ui).1 ∧
      (resetAnimBaseline s0).activeClipId = none ∧
      (resetAnimBaseline s0).clips = [] ∧
      (resetAnimBaseline s0).clipOrder = [] ∧
      (resetAnimBaseline s0).tracks = [] ∧
      (resetAnimBaseline s0).markers = [] ∧
      (resetAnimBaseline s0).playhead = 0 ∧
      (resetAnimBaseline s0).playing = false ∧
      (resetAnimBaseline s0).soloTrackIds = [] ∧
      (resetAnimBaseline s0).fps = s0.fps ∧
      (resetAnimBaseline s0).autoKey = s0.autoKey ∧
      (resetAnimBaseline s0).snapping = s0.snapping ∧
      s'.autoKey = s0.autoKey ∧ s'.snapping = s0.snapping ∧
      ((scene.animations = none ∨
        ∃ a, scene.animations = some a ∧ a.fps = none) → s'.fps = s0.fps) ∧
      (scene.animations = none ∧ scene.ui = none →
        s' = resetAnimBaseline s0) := by
  obtain ⟨scene, md, meshes, materials, objects, vp, roots, hz, hmd, hme,
    hma, hob, hv, hvp, hro, hd, hs⟩ := importFromT3D_ok_inv zip s0 d s' h
  obtain ⟨hak, hsn, hfps⟩ :=
    animPopulate_preserve (resetAnimBaseline s0) scene.animations scene.ui
  refine ⟨scene, hz, hs, rfl, rfl, rfl, rfl, rfl, rfl, rfl, rfl, rfl, rfl,
    rfl, ?_, ?_, ?_, ?_⟩
  · rw [hs]
    exact hak
  · rw [hs]
    exact hsn
  · intro hcase
    rw [hs]
    exact hfps hcase
  · rintro ⟨ha, hu⟩
    rw [hs]
    unfold projectAnimations
    rw [ha, hu]
    rfl

/-- C5 (witness): importing the minimal document (no animations/ui payload)
from a dirty animation store lands exactly on the cleared baseline with
`fps`, `autoKey` and `snapping` preserved. -/
theorem c5_witness :
    (resetAnimBaseline exAnim0).activeClipId = none ∧
    (resetAnimBaseline exAnim0).clips = [] ∧
    (resetAnimBaseline exAnim0).clipOrder = [] ∧
    (resetAnimBaseline exAnim0).tracks = [] ∧
    (resetAnimBaseline exAnim0).markers = [] ∧
    (resetAnimBaseline exAnim0).playhead = 0 ∧
    (resetAnimBaseline exAnim0).playing = false ∧
    (resetAnimBaseline exAnim0).soloTrackIds = [] ∧
    (resetAnimBaseline exAnim0).fps = exAnim0.fps ∧
    (resetAnimBaseline exAnim0).autoKey = exAnim0.autoKey ∧
    (resetAnimBaseline exAnim0).snapping = exAnim0.snapping ∧
    resetAnimBaseline exAnim0 =
      (animPopulate (resetAnimBaseline exAnim0) exScene1.animations
        exScene1.ui).1 := by
  obtain ⟨scene, hz, hs, h1, h2, h3, h4, h5, h6, h7, h8, h9, h10, h11, h12,
    h13, h14, h15⟩ := c5_anim_reset_baseline exZip1 exAnim0
      (assembleResult exMetadata1 [] [] [] exViewportT3D [] exScene1)
      (resetAnimBaseline exAnim0) rfl
  obtain rfl : exScene1 = scene := by
    have hz0 : exZip1.sceneJson = some (JsonDoc.parsed exScene1) := rfl
    rw [hz0] at hz
    simp only [Option.some.injEq, JsonDoc.parsed.injEq] at hz
    exact hz
  exact ⟨h1, h2, h3, h4, h5, h6, h7, h8, h9, h10, h11, hs⟩

/-- C6: the declared defaults of the entity converters apply exactly when
the source field is absent (`none`), never when it is present with a falsy
value: absent `emissiveIntensity` becomes 1 while a present value — 0
included — passes through; absent `render` becomes `true` while a present
`false` stays `false`; absent `activeCameraObjectId` becomes none while a
present id passes through. -/
theorem c6_defaults (m : T3DMaterial) (o : T3DSceneObject) (vp : T3DViewport) :
    (m.emissiveIntensity = none → (t3dToMaterial m).emissiveIntensity = 1) ∧
    (∀ q, m.emissiveIntensity = some q →
      (t3dToMaterial m).emissiveIntensity = q) ∧
    (o.render = none → (t3dToSceneObject o).render = true) ∧
    (∀ b, o.render = some b → (t3dToSceneObject o).render = b) ∧
    (vp.activeCameraObjectId = none →
      (t3dToViewport vp).activeCameraObjectId = none) ∧
    (∀ i, vp.activeCameraObjectId = some i →
      (t3dToViewport vp).activeCameraObjectId = some i) := by
  refine ⟨fun h => ?_, fun q h => ?_, fun h => ?_, fun b h => ?_,
    fun h => ?_, fun i h => ?_⟩ <;>
    simp [t3dToMaterial, t3dToSceneObject, t3dToViewport, h]

/-- C6 (witness): `emissiveIntensity` absent converts to exactly 1 and
present 0 to exactly 0; `render` absent converts to `true` and present
`false` to `false`; `activeCameraObjectId` absent converts to none. -/
theorem c6_witness :
    (t3dToMaterial exMatAbsent).emissiveIntensity = 1 ∧
    (t3dToMaterial exMatZero).emissiveIntensity = 0 ∧
    (t3dToSceneObject exObjRenderAbsent).render = true ∧
    (t3dToSceneObject exObjRenderFalse).render = false ∧
    (t3dToViewport exViewportT3D).activeCameraObjectId = none :=
  ⟨(c6_defaults exMatAbsent exObjRenderAbsent exViewportT3D).1 rfl,
   (c6_defaults exMatZero exObjRenderFalse exViewportT3D).2.1 0 rfl,
   (c6_defaults exMatAbsent exObjRenderAbsent exViewportT3D).2.2.1 rfl,
   (c6_defaults exMatZero exObjRenderFalse exViewportT3D).2.2.2.1 false rfl,
   (c6_defaults exMatAbsent exObjRenderAbsent exViewportT3D).2.2.2.2.1 rfl⟩

/-- C7: on a document that passes every check, a present lights (resp.
cameras) sequence yields an id-keyed mapping with one entry per unique
identifier — a key reads back exactly when it is some entity's id — while
an absent sequence leaves the output field omitted (`none`), not an empty
mapping. -/
theorem c7_lights_cameras_maps (zip : ZipContents) (s0 : AnimState)
    (scene : T3DScene) (md : T3DMetadata) (meshes : List T3DMesh)
    (materials : List T3DMaterial) (objects : List T3DSceneObject)
    (vp : T3DViewport) (roots : List String)
    (hz : zip.sceneJson = some (JsonDoc.parsed scene))
    (hmd : scene.metadata = some md) (hme : scene.meshes = some meshes)
    (hma : scene.materials = some materials)
    (hob : scene.objects = some objects)
    (hv : isVersionCompatible md.version = true)
    (hvp : scene.viewport = some vp) (hro : scene.rootObjects = some roots) :
    ∃ d s', importFromT3D zip s0 = .ok (d, s') ∧
      (scene.lights = none → d.lights = none) ∧
      (∀ ls, scene.lights = some ls →
        ∃ r, d.lights = some r ∧ (r.map Prod.fst).Nodup ∧
          ∀ i, ((recordGet r i).isSome = true ↔ i ∈ ls.map T3DLight.id)) ∧
      (scene.cameras = none → d.cameras = none) ∧
      (∀ cs, scene.cameras = some cs →
        ∃ r, d.cameras = some r ∧ (r.map Prod.fst).Nodup ∧
          ∀ i, ((recordGet r i).isSome = true ↔
            i ∈ cs.map T3DCameraResource.id)) := by
  refine ⟨assembleResult md meshes materials objects vp roots scene,
    projectAnimations s0 scene.animations scene.ui,
    (importFromT3D_ok_of_valid zip s0 scene md meshes materials objects vp
      roots hz hmd hme hma hob hv hvp hro), ?_, ?_, ?_, ?_⟩
  · intro hnone
    simp [assembleResult, hnone]
  · intro ls hls
    refine ⟨fromEntries (ls.map fun l => (l.id, l)), by simp [assembleResult, hls],
      nodup_keys_fromEntries _, ?_⟩
    intro i
    rw [recordGet_isSome_iff, mem_keys_fromEntries]
    simp [List.map_map, Function.comp]
  · intro hnone
    simp [assembleResult, hnone]
  · intro cs hcs
    refine ⟨fromEntries (cs.map fun c => (c.id, c)), by simp [assembleResult, hcs],
      nodup_keys_fromEntries _, ?_⟩
    intro i
    rw [recordGet_isSome_iff, mem_keys_fromEntries]
    simp [List.map_map, Function.comp]

/-- C7 (witness): a document with two lights and no cameras payload yields
a two-key lights mapping (both ids readable, keys unique) and an omitted
cameras field. -/
theorem c7_witness :
    ∃ d s', importFromT3D exZip7 exAnim0 = .ok (d, s') ∧
      (exScene7.lights = none → d.lights = none) ∧
      (∀ ls, exScene7.lights = some ls →
        ∃ r, d.lights = some r ∧ (r.map Prod.fst).Nodup ∧
          ∀ i, ((recordGet r i).isSome = true ↔ i ∈ ls.map T3DLight.id)) ∧
      (exScene7.cameras = none → d.cameras = none) ∧
      (∀ cs, exScene7.cameras = some cs →
        ∃ r, d.cameras = some r ∧ (r.map Prod.fst).Nodup ∧
          ∀ i, ((recordGet r i).isSome = true ↔
            i ∈ cs.map T3DCameraResource.id)) :=
  c7_lights_cameras_maps exZip7 exAnim0 exScene7 exMetadata1 [] [] []
    exViewportT3D [] rfl rfl rfl rfl rfl rfl rfl rfl

/-- C9: whenever the archive's `scene.json` entry is not valid JSON, the
scene import fails with the MalformedJsonError whose message names the failing
entry, and never with the generic ImportFailedError; no field or version
check gets a chance to run since no document exists. -/
theorem c9_malformed_json (zip : ZipContents) (s0 : AnimState)
    (h : zip.sceneJson = some JsonDoc.malformed) :
    (importFromT3D zip s0) =
      .error (.malformedJson "Invalid T3D file: scene.json is not valid JSON") ∧
    (∃ p q, "Invalid T3D file: scene.json is not valid JSON" =
      p ++ "scene.json" ++ q) ∧
    (∀ m, importFromT3D zip s0 ≠ .error (.importFailed m)) := by
  have hres : importFromT3D zip s0 =
      .error (.malformedJson "Invalid T3D file: scene.json is not valid JSON") := by
    unfold importFromT3D importFromT3Dbody
    rw [h]
    rfl
  refine ⟨hres, ⟨"Invalid T3D file: ", " is not valid JSON", rfl⟩, ?_⟩
  intro m hm
  rw [hres] at hm
  simp at hm

/-- C9 (witness): the malformed-entry archive produces exactly the
MalformedJsonError naming `scene.json`, and not an ImportFailedError. -/
theorem c9_witness :
    (importFromT3D exZipMalformed exAnim0) =
      .error (.malformedJson "Invalid T3D file: scene.json is not valid JSON") ∧
    (∃ p q, "Invalid T3D file: scene.json is not valid JSON" =
      p ++ "scene.json" ++ q) ∧
    (importFromT3D exZipMalformed exAnim0) ≠
      .error (.importFailed "Failed to import T3D file: Unknown error occurred") := by
  obtain ⟨h1, h2, h3⟩ := c9_malformed_json exZipMalformed exAnim0 rfl
  exact ⟨h1, h2, h3 _⟩

/-- C10: on every successful import the document's `selectedObjectId` is
passed through verbatim; in particular when it is absent (`undefined`) the
returned `selectedObjectId` is itself `undefined` — not normalized to
`null`, despite the declared string-or-null output type. -/
theorem c10_selected_passthrough (zip : ZipContents) (s0 : AnimState)
    (d : ImportedWorkspaceData) (s' : AnimState)
    (h : importFromT3D zip s0 = .ok (d, s')) :
    ∃ scene : T3DScene,
      zip.sceneJson = some (JsonDoc.parsed scene) ∧
      d.selectedObjectId = scene.selectedObjectId ∧
      (scene.selectedObjectId = JsOptStr.undef →
        d.selectedObjectId = JsOptStr.undef ∧
        d.selectedObjectId ≠ JsOptStr.null) := by
  obtain ⟨scene, md, meshes, materials, objects, vp, roots, hz, hmd, hme,
    hma, hob, hv, hvp, hro, hd, hs⟩ := importFromT3D_ok_inv zip s0 d s' h
  have hsel : d.selectedObjectId = scene.selectedObjectId := by
    rw [hd]
    rfl
  refine ⟨scene, hz, hsel, fun hu => ⟨?_, ?_⟩⟩
  · rw [hsel, hu]
  · rw [hsel, hu]
    simp

/-- C10 (witness): importing the minimal document, whose
`selectedObjectId` is absent, returns an absent (`undefined`)
`selectedObjectId`, not `null`. -/
theorem c10_witness :
    (assembleResult exMetadata1 [] [] [] exViewportT3D []
      exScene1).selectedObjectId = JsOptStr.undef ∧
    (assembleResult exMetadata1 [] [] [] exViewportT3D []
      exScene1).selectedObjectId ≠ JsOptStr.null := by
  obtain ⟨scene, hz, hsel, himp⟩ := c10_selected_passthrough exZip1 exAnim0
    (assembleResult exMetadata1 [] [] [] exViewportT3D [] exScene1)
    (resetAnimBaseline exAnim0) rfl
  obtain rfl : exScene1 = scene := by
    have hz0 : exZip1.sceneJson = some (JsonDoc.parsed exScene1) := rfl
    rw [hz0] at hz
    simp only [Option.some.injEq, JsonDoc.parsed.injEq] at hz
    exact hz
  exact himp rfl

namespace HeapModel

/-- C8: the heap-level converters copy the reference-valued sequence fields
— edge `faceIds`, face `vertexIds`, object `children` — into fresh arrays:
contents and order are preserved, the copy lives at a new address, and
mutating either the converted entity's array or the source document's array
leaves the other unchanged. -/
theorem c8_defensive_copy (h1 h2 h3 : Heap) (e : T3DEdgeR) (f : T3DFaceR)
    (o : T3DObjR) (he : e.faceIds < h1.length)
    (hf : f.vertexIds < h2.length) (ho : o.children < h3.length) :
    (hread (t3dToEdge h1 e).1 ((t3dToEdge h1 e).2).faceIds =
        hread h1 e.faceIds ∧
      ((t3dToEdge h1 e).2).faceIds ≠ e.faceIds ∧
      ∀ xs, hread (hwrite (t3dToEdge h1 e).1 ((t3dToEdge h1 e).2).faceIds xs)
          e.faceIds = hread h1 e.faceIds ∧
        hread (hwrite (t3dToEdge h1 e).1 e.faceIds xs)
          ((t3dToEdge h1 e).2).faceIds = hread h1 e.faceIds) ∧
    (hread (t3dToFace h2 f).1 ((t3dToFace h2 f).2).vertexIds =
        hread h2 f.vertexIds ∧
      ((t3dToFace h2 f).2).vertexIds ≠ f.vertexIds ∧
      ∀ xs, hread (hwrite (t3dToFace h2 f).1 ((t3dToFace h2 f).2).vertexIds xs)
          f.vertexIds = hread h2 f.vertexIds ∧
        hread (hwrite (t3dToFace h2 f).1 f.vertexIds xs)
          ((t3dToFace h2 f).2).vertexIds = hread h2 f.vertexIds) ∧
    (hread (t3dToObject h3 o).1 ((t3dToObject h3 o).2).children =
        hread h3 o.children ∧
      ((t3dToObject h3 o).2).children ≠ o.children ∧
      ∀ xs, hread (hwrite (t3dToObject h3 o).1 ((t3dToObject h3 o).2).children xs)
          o.children = hread h3 o.children ∧
        hread (hwrite (t3dToObject h3 o).1 o.children xs)
          ((t3dToObject h3 o).2).children = hread h3 o.children) :=
  ⟨spreadCopy_spec h1 e.faceIds he, spreadCopy_spec h2 f.vertexIds hf,
   spreadCopy_spec h3 o.children ho⟩

/-- C8 (witness): on concrete one-array heaps, the converted edge's copy
reads back the source contents, lives at a fresh address, writing the copy
leaves the source edge/face arrays untouched, and the object's copy reads
back its source contents. -/
theorem c8_witness :
    hread (t3dToEdge exHeapE exEdgeR).1 ((t3dToEdge exHeapE exEdgeR).2).faceIds =
      hread exHeapE exEdgeR.faceIds ∧
    ((t3dToEdge exHeapE exEdgeR).2).faceIds ≠ exEdgeR.faceIds ∧
    hread (hwrite (t3dToEdge exHeapE exEdgeR).1
        ((t3dToEdge exHeapE exEdgeR).2).faceIds ["mutated"]) exEdgeR.faceIds =
      hread exHeapE exEdgeR.faceIds ∧
    hread (hwrite (t3dToFace exHeapF exFaceR).1 exFaceR.vertexIds ["mutated"])
        ((t3dToFace exHeapF exFaceR).2).vertexIds =
      hread exHeapF exFaceR.vertexIds ∧
    hread (t3dToObject exHeapO exObjR).1 ((t3dToObject exHeapO exObjR).2).children =
      hread exHeapO exObjR.children := by
  obtain ⟨he, hf, ho⟩ := c8_defensive_copy exHeapE exHeapF exHeapO exEdgeR
    exFaceR exObjR (by decide) (by decide) (by decide)
  exact ⟨he.1, he.2.1, (he.2.2 ["mutated"]).1, (hf.2.2 ["mutated"]).2, ho.1⟩

end HeapModel
